import Mathlib

/-!
Shallow embedding of `notify2.py` (pure-python notification client).

The module keeps process-wide state: `initted`, `appname`, `_have_mainloop`,
`dbus_obj` (a raising stub `UninittedDbusObj` before `init`, a live proxy
after) and `notifications_registry` (a dict mapping server notification ids
to the in-process `Notification` objects).  We model this state explicitly
and each operation as a pure function returning `Except PyError`, recording
the outbound D-Bus calls it would issue.  The remote server's replies
(notification ids, capability lists, server info tuples) are supplied as
parameters, since the server is out of process.
-/

namespace Notify2

/-- Python exceptions raised by the module. -/
inductive PyError where
  /-- Source `UninittedError`, raised by attribute access on `UninittedDbusObj`. -/
  | uninittedError
  /-- Python `KeyError` from a failed dict lookup `d[k]`. -/
  | keyError (nid : Nat)
  /-- Python `ValueError`. -/
  | valueError
  deriving DecidableEq, Repr

/-- Python dict lookup `d[k]` as an association list lookup (insertion
order, last write wins via `dictInsert`). -/
def dictLookup {α β : Type} [DecidableEq α] (l : List (α × β)) (k : α) : Option β :=
  match l.find? (fun p => p.1 = k) with
  | some p => some p.2
  | none => none

/-- Python dict assignment `d[k] = v`: overwrite in place if `k` present,
else append (Python dicts preserve insertion order). -/
def dictInsert {α β : Type} [DecidableEq α] (l : List (α × β)) (k : α) (v : β) :
    List (α × β) :=
  if l.any (fun p => p.1 = k) then
    l.map (fun p => if p.1 = k then (k, v) else p)
  else
    l ++ [(k, v)]

/-- Python `del d[k]`. -/
def dictDelete {α β : Type} [DecidableEq α] (l : List (α × β)) (k : α) :
    List (α × β) :=
  l.filter (fun p => p.1 ≠ k)

/-- Hint values stored in `Notification.hints`: plain values pass through,
`set_hint_byte` wraps in `dbus.Byte` (a distinct wire type). -/
inductive HintValue where
  | str (s : String)
  | int (i : Int)
  /-- A `dbus.Byte(value)` wrapper. -/
  | byte (b : Int)
  deriving DecidableEq, Repr

/-- One entry of `Notification.actions`: the tuple
`(label, callback, user_data)` stored by `add_action`.  Callbacks are
opaque; we identify them by a number. -/
structure ActionEntry where
  label : String
  callback : Nat
  user_data : Option Nat
  deriving DecidableEq, Repr

/-- The mutable fields of a `Notification` object.  `closedCallback none`
is the class-level default `no_op`. -/
structure Notification where
  id : Nat
  timeout : Int
  summary : String
  message : String
  icon : String
  hints : List (String × HintValue)
  actions : List (String × ActionEntry)
  closedCallback : Option Nat
  deriving DecidableEq, Repr

/-- Source `Notification(summary, message, icon)`: class defaults `id = 0`,
`timeout = -1`, `_closed_callback = no_op`, fresh empty dicts. -/
def Notification.new (summary message icon : String) : Notification :=
  { id := 0, timeout := -1, summary := summary, message := message,
    icon := icon, hints := [], actions := [], closedCallback := none }

/-- Source `dbus_obj`: either the raising stub `UninittedDbusObj` or a live proxy
for the notifications service. -/
inductive DbusObj where
  | uninitted
  | connected
  deriving DecidableEq, Repr

/-- A registry value: Python stores a reference to the `Notification`
object itself; `addr` is the object's identity (its address), `obj` the
object reached through it. -/
structure ObjRef where
  addr : Nat
  obj : Notification
  deriving DecidableEq, Repr

/-- The process-wide module state: `initted`, `appname`, `_have_mainloop`,
`dbus_obj` and `notifications_registry`. -/
structure ModuleState where
  initted : Bool
  appname : String
  have_mainloop : Bool
  dbus_obj : DbusObj
  notifications_registry : List (Nat × ObjRef)
  deriving DecidableEq, Repr

/-- Module state at import time: `initted = False`, `appname = ""`,
`_have_mainloop = False`, `dbus_obj = UninittedDbusObj()`,
`notifications_registry = {}`. -/
def initialState : ModuleState :=
  { initted := false, appname := "", have_mainloop := false,
    dbus_obj := .uninitted, notifications_registry := [] }

/-- Outbound D-Bus calls issued through `dbus_obj`. -/
inductive OutCall where
  | notify (app_name : String) (replaces_id : Nat) (app_icon summary body : String)
      (actions : List String) (hints : List (String × HintValue)) (expire_timeout : Int)
  | closeNotification (nid : Nat)
  | getCapabilities
  | getServerInformation
  deriving DecidableEq, Repr

/-- Source `init(app_name, mainloop)` on the success path.  `mainloop` abstracts
whether a mainloop argument was supplied (a token string or a loop object);
`default_loop` abstracts `dbus.get_default_main_loop()` being active.  The
function opens the session bus, binds `dbus_obj`, sets `appname` and
`initted`, and enables event delivery iff a mainloop is available.  Note
the source never resets `_have_mainloop` to `False` here. -/
def init (st : ModuleState) (app_name : String) (mainloop default_loop : Bool) :
    ModuleState :=
  let st' := { st with dbus_obj := .connected, appname := app_name, initted := true }
  if mainloop || default_loop then { st' with have_mainloop := true } else st'

/-- Source `is_initted()`. -/
def is_initted (st : ModuleState) : Bool := st.initted

/-- Source `get_app_name()`. -/
def get_app_name (st : ModuleState) : String := st.appname

/-- Source `uninit()`: `initted = False`, `_have_mainloop = False`,
`dbus_obj = UninittedDbusObj()`.  The registry is not touched. -/
def uninit (st : ModuleState) : ModuleState :=
  { st with initted := false, have_mainloop := false, dbus_obj := .uninitted }

/-- Source `get_server_caps()`: `dbus_obj.GetCapabilities()`.  Attribute access on
the stub raises `UninittedError`; otherwise the call goes out and the
server's reply (a parameter here) is converted to strings. -/
def get_server_caps (st : ModuleState) (serverReply : List String) :
    Except PyError (List OutCall × List String) :=
  match st.dbus_obj with
  | .uninitted => .error .uninittedError
  | .connected => .ok ([.getCapabilities], serverReply)

/-- The record built by `get_server_info()` from the server's 4-tuple. -/
structure ServerInfo where
  name : String
  vendor : String
  version : String
  spec_version : String
  deriving DecidableEq, Repr

/-- Source `get_server_info()`: `dbus_obj.GetServerInformation()` then repack the
tuple into a dict. -/
def get_server_info (st : ModuleState)
    (serverReply : String × String × String × String) :
    Except PyError (List OutCall × ServerInfo) :=
  match st.dbus_obj with
  | .uninitted => .error .uninittedError
  | .connected =>
      .ok ([.getServerInformation],
        { name := serverReply.1, vendor := serverReply.2.1,
          version := serverReply.2.2.1, spec_version := serverReply.2.2.2 })

/-- Source `urgency_levels = [URGENCY_LOW, URGENCY_NORMAL, URGENCY_CRITICAL]`
with `URGENCY_LOW = 0`, `URGENCY_NORMAL = 1`, `URGENCY_CRITICAL = 2`. -/
def urgency_levels : List Int := [0, 1, 2]

namespace Notification

/-- Source `update(summary, message="", icon=None)`: replaces summary and body;
the icon only when one is given (`icon is not None`). -/
def update (n : Notification) (summary message : String) (icon : Option String) :
    Notification :=
  { n with summary := summary, message := message,
           icon := match icon with | none => n.icon | some i => i }

/-- Source `set_hint(key, value)` — `n.hints[key] = value`. -/
def set_hint (n : Notification) (key : String) (value : HintValue) : Notification :=
  { n with hints := dictInsert n.hints key value }

/-- Source `set_hint_byte(key, value)` — `n.hints[key] = dbus.Byte(value)`. -/
def set_hint_byte (n : Notification) (key : String) (value : Int) : Notification :=
  { n with hints := dictInsert n.hints key (.byte value) }

/-- Source `set_urgency(level)`: `ValueError` unless `level in urgency_levels`,
else `set_hint_byte("urgency", level)`. -/
def set_urgency (n : Notification) (level : Int) : Except PyError Notification :=
  if level ∈ urgency_levels then .ok (n.set_hint_byte "urgency" level)
  else .error .valueError

/-- Source `set_category(category)` — `n.hints['category'] = category`. -/
def set_category (n : Notification) (category : String) : Notification :=
  { n with hints := dictInsert n.hints "category" (.str category) }

/-- Source `set_timeout(timeout)` (the `isinstance(timeout, int)` check always
passes in this typed embedding). -/
def set_timeout (n : Notification) (timeout : Int) : Notification :=
  { n with timeout := timeout }

/-- Source `add_action(action, label, callback, user_data=None)` — stores the
tuple `(label, callback, user_data)` under the key `action`. -/
def add_action (n : Notification) (action label : String) (callback : Nat)
    (user_data : Option Nat) : Notification :=
  { n with actions :=
      dictInsert n.actions action ⟨label, callback, user_data⟩ }

/-- Source `_make_actions_array()`: interleave key and label per dict entry. -/
def make_actions_array (n : Notification) : List String :=
  n.actions.foldl (fun arr p => arr ++ [p.1, p.2.label]) []

/-- A record of one user callback invocation made by the action dispatch:
which callback, and its argument list — `(self, action)` when
`user_data is None`, `(self, action, user_data)` otherwise. -/
structure Invocation where
  callback : Nat
  selfArg : Notification
  actionKey : String
  userDataArg : Option Nat
  deriving DecidableEq, Repr

/-- The instance method `_action_callback(action)`: look up `action` in
`self.actions`; on `KeyError` silently return; else call the stored
callback with `(self, action)` or `(self, action, user_data)`. -/
def action_dispatch (n : Notification) (action : String) : Option Invocation :=
  match dictLookup n.actions action with
  | none => none
  | some entry =>
      match entry.user_data with
      | none => some { callback := entry.callback, selfArg := n,
                       actionKey := action, userDataArg := none }
      | some ud => some { callback := entry.callback, selfArg := n,
                          actionKey := action, userDataArg := some ud }

/-- Source `connect(event, callback)`: `ValueError` unless `event == 'closed'`,
else set `self._closed_callback = callback`. -/
def connect (n : Notification) (event : String) (callback : Nat) :
    Except PyError Notification :=
  if event ≠ "closed" then .error .valueError
  else .ok { n with closedCallback := some callback }

end Notification

/-- Source `Notification.show()`.  `ref` is the identity (address) of `self`;
`serverNid` is the id the server returns from `Notify`.  On success the
returned id becomes `self.id`, and if `_have_mainloop` the object itself is
stored in `notifications_registry[self.id]`. -/
def «show» (st : ModuleState) (ref : Nat) (n : Notification) (serverNid : Nat) :
    Except PyError (ModuleState × Notification × List OutCall) :=
  match st.dbus_obj with
  | .uninitted => .error .uninittedError
  | .connected =>
      let call := OutCall.notify st.appname n.id n.icon n.summary n.message
        n.make_actions_array n.hints n.timeout
      let n' := { n with id := serverNid }
      let st' :=
        if st.have_mainloop then
          { st with notifications_registry :=
              dictInsert st.notifications_registry serverNid ⟨ref, n'⟩ }
        else st
      .ok (st', n', [call])

/-- Source `Notification.close()`: no-op when `self.id == 0`, else
`dbus_obj.CloseNotification(self.id)`. -/
def close (st : ModuleState) (n : Notification) :
    Except PyError (ModuleState × Notification × List OutCall) :=
  if n.id ≠ 0 then
    match st.dbus_obj with
    | .uninitted => .error .uninittedError
    | .connected => .ok (st, n, [.closeNotification n.id])
  else
    .ok (st, n, [])

/-- The module-level signal handler `_action_callback(nid, action)`:
`n = notifications_registry[nid]` (a bare dict lookup — `KeyError` when the
id is absent) then `n._action_callback(action)`. -/
def action_callback (st : ModuleState) (nid : Nat) (action : String) :
    Except PyError (ModuleState × Option Notification.Invocation) :=
  match dictLookup st.notifications_registry nid with
  | none => .error (.keyError nid)
  | some r => .ok (st, r.obj.action_dispatch action)

/-- A record of the `n._closed_callback(n)` invocation made by the closed
handler: `callback none` is the default `no_op`, `argAddr` the identity of
the object passed as argument. -/
structure ClosedDispatch where
  callback : Option Nat
  argAddr : Nat
  deriving DecidableEq, Repr

/-- The module-level signal handler `_closed_callback(nid, reason)`:
`n = notifications_registry[nid]` (bare lookup — `KeyError` when absent),
`n._closed_callback(n)`, `del notifications_registry[nid]`. -/
def closed_callback (st : ModuleState) (nid reason : Nat) :
    Except PyError (ModuleState × ClosedDispatch) :=
  match dictLookup st.notifications_registry nid with
  | none => .error (.keyError nid)
  | some r =>
      .ok ({ st with notifications_registry :=
               dictDelete st.notifications_registry nid },
           { callback := r.obj.closedCallback, argAddr := r.addr })

/-- One step of the module's observable state transitions: a successful
`init` (with either mainloop availability), `uninit`, a successful `show`,
or a successful delivery of a `NotificationClosed` signal. -/
inductive Step : ModuleState → ModuleState → Prop where
  | initStep (st : ModuleState) (app : String) (ml dl : Bool) :
      Step st (init st app ml dl)
  | uninitStep (st : ModuleState) : Step st (uninit st)
  | showStep (st st' : ModuleState) (ref : Nat) (n n' : Notification)
      (nid : Nat) (calls : List OutCall)
      (h : «show» st ref n nid = .ok (st', n', calls)) : Step st st'
  | closedStep (st st' : ModuleState) (nid reason : Nat) (d : ClosedDispatch)
      (h : closed_callback st nid reason = .ok (st', d)) : Step st st'

/-- States reachable from the import-time state. -/
inductive Reachable : ModuleState → Prop where
  | initial : Reachable initialState
  | step {st st' : ModuleState} : Reachable st → Step st st' → Reachable st'

/-- The Connection Manager invariant: the channel is live iff initialized,
and event delivery implies initialized. -/
def StateInv (st : ModuleState) : Prop :=
  (st.dbus_obj = .connected ↔ st.initted = true) ∧
  (st.have_mainloop = true → st.initted = true)

instance (st : ModuleState) : Decidable (StateInv st) := by
  unfold StateInv; infer_instance

/-! Helper lemmas about the dict model. -/

theorem dictLookup_dictDelete {α β : Type} [DecidableEq α]
    (l : List (α × β)) (k : α) : dictLookup (dictDelete l k) k = none := by
  induction l with
  | nil => rfl
  | cons p t ih =>
      by_cases h : p.1 = k
      · simpa [dictDelete, List.filter_cons, h] using ih
      · simpa [dictDelete, dictLookup, List.filter_cons, h, List.find?_cons] using ih

theorem dictInsert_cons_ne {α β : Type} [DecidableEq α]
    (p : α × β) (t : List (α × β)) (k : α) (v : β) (h : p.1 ≠ k) :
    dictInsert (p :: t) k v = p :: dictInsert t k v := by
  by_cases ht : t.any (fun q => q.1 = k) <;> simp [dictInsert, h, ht]

theorem dictLookup_dictInsert_self {α β : Type} [DecidableEq α]
    (l : List (α × β)) (k : α) (v : β) : dictLookup (dictInsert l k v) k = some v := by
  induction l with
  | nil => simp [dictInsert, dictLookup]
  | cons p t ih =>
      by_cases h : p.1 = k
      · simp [dictInsert, dictLookup, h, List.find?_cons]
      · rw [dictInsert_cons_ne p t k v h]
        simpa [dictLookup, List.find?_cons, h] using ih

/-! Invariant preservation lemmas for the Connection Manager state. -/

theorem stateInv_init (st : ModuleState) (app : String) (ml dl : Bool) :
    StateInv (init st app ml dl) := by
  unfold StateInv init
  by_cases h : ml || dl <;> simp [h]

theorem stateInv_uninit (st : ModuleState) : StateInv (uninit st) := by
  unfold StateInv uninit
  simp

theorem show_ok_fields {st st' : ModuleState} {ref : Nat} {n n' : Notification}
    {nid : Nat} {calls : List OutCall}
    (h : «show» st ref n nid = .ok (st', n', calls)) :
    st'.initted = st.initted ∧ st'.have_mainloop = st.have_mainloop ∧
    st'.dbus_obj = st.dbus_obj := by
  unfold «show» at h
  cases hd : st.dbus_obj <;> rw [hd] at h
  · exact absurd h (by simp)
  · by_cases hm : st.have_mainloop = true <;> simp [hm] at h <;>
      obtain ⟨h1, -, -⟩ := h <;> subst h1 <;> simp [hd, hm]

theorem closed_ok_fields {st st' : ModuleState} {nid reason : Nat}
    {d : ClosedDispatch} (h : closed_callback st nid reason = .ok (st', d)) :
    st'.initted = st.initted ∧ st'.have_mainloop = st.have_mainloop ∧
    st'.dbus_obj = st.dbus_obj := by
  unfold closed_callback at h
  cases hl : dictLookup st.notifications_registry nid <;> rw [hl] at h
  · exact absurd h (by simp)
  · simp at h
    obtain ⟨h1, -⟩ := h
    subst h1
    simp

theorem reachable_stateInv {st : ModuleState} (h : Reachable st) : StateInv st := by
  induction h with
  | initial => decide
  | step _ hs ih =>
      cases hs with
      | initStep app ml dl => exact stateInv_init _ app ml dl
      | uninitStep => exact stateInv_uninit _
      | showStep st' ref n n' nid calls hshow =>
          obtain ⟨h1, h2, h3⟩ := show_ok_fields hshow
          unfold StateInv at ih ⊢
          rw [h1, h2, h3]
          exact ih
      | closedStep st' nid reason d hcl =>
          obtain ⟨h1, h2, h3⟩ := closed_ok_fields hcl
          unfold StateInv at ih ⊢
          rw [h1, h2, h3]
          exact ih

theorem reachable_uninitted_stub {st : ModuleState} (h : Reachable st)
    (hi : st.initted = false) : st.dbus_obj = .uninitted := by
  have hinv := reachable_stateInv h
  cases hd : st.dbus_obj
  · rfl
  · have := hinv.1.mp hd
    rw [hi] at this
    exact absurd this (by simp)

/-! Concrete example states used by the witnesses below. -/

/-- Example notification fresh from the constructor. -/
def exNotif : Notification := Notification.new "s" "b" "i"

/-- Example ready state with events enabled. -/
def exStReady : ModuleState := init initialState "app" true false

/-- Example notification after a show that returned id 7. -/
def exShown : Notification := { exNotif with id := 7 }

/-- Example module state after that show (object address 42 registered). -/
def exStAfter : ModuleState :=
  { exStReady with notifications_registry := [(7, ⟨42, exShown⟩)] }

/-- Example module state after the closed event for id 7 was delivered. -/
def exStClosed : ModuleState := { exStAfter with notifications_registry := [] }

/-- Example notification carrying one action without user data and one
with user data. -/
def exActed : Notification :=
  ((Notification.new "s" "" "").add_action "ok" "OK" 1 none).add_action
    "no" "No" 2 (some 9)

/-- C1 (counterexample): in the reachable import-time state the registry is
empty, and delivering a NotificationClosed or ActionInvoked event for id 7
raises a KeyError — it is not a silent no-op as claimed. -/
theorem closed_event_unknown_id_raises_cex :
    closed_callback initialState 7 1 = .error (.keyError 7) ∧
    action_callback initialState 7 "ok" = .error (.keyError 7) := by
  constructor <;> rfl

/-- C1 (amended): delivering an inbound event (ActionInvoked or
NotificationClosed) whose id is absent from the registry raises a KeyError
(the handlers do a bare dict lookup); in particular, after a
NotificationClosed delivery removes an id, a second delivery for the same
id raises KeyError and dispatches no duplicate callback. -/
theorem unknown_id_event_raises (st st' : ModuleState) (nid reason reason' : Nat)
    (action : String) (d : ClosedDispatch) :
    (dictLookup st.notifications_registry nid = none →
      action_callback st nid action = .error (.keyError nid) ∧
      closed_callback st nid reason = .error (.keyError nid)) ∧
    (closed_callback st nid reason = .ok (st', d) →
      closed_callback st' nid reason' = .error (.keyError nid)) := by
  constructor
  · intro h
    constructor
    · unfold action_callback; rw [h]
    · unfold closed_callback; rw [h]
  · intro h
    unfold closed_callback at h ⊢
    cases hl : dictLookup st.notifications_registry nid <;> rw [hl] at h
    · exact absurd h (by simp)
    · simp at h
      obtain ⟨h1, -⟩ := h
      subst h1
      simp [dictLookup_dictDelete]

/-- C1 witness: both handlers raise KeyError for the unregistered id 9 in
the import-time state, and after the closed event for id 7 removed its
entry from `exStAfter`, a second closed event for id 7 raises KeyError. -/
theorem unknown_id_event_raises_witness :
    (action_callback initialState 9 "x" = .error (.keyError 9) ∧
     closed_callback initialState 9 2 = .error (.keyError 9)) ∧
    closed_callback exStClosed 7 3 = .error (.keyError 7) :=
  ⟨(unknown_id_event_raises initialState initialState 9 2 2 "x" ⟨none, 0⟩).1 rfl,
   (unknown_id_event_raises exStAfter exStClosed 7 2 3 "x" ⟨none, 42⟩).2 rfl⟩

/-- C2: in every reachable module state that is uninitialized (before
init() or after uninit()), each channel-dependent operation — show, close
with nonzero id, get_server_caps, get_server_info — fails with
UninittedError, never a null-reference-style fault. -/
theorem uninitialized_operations_raise (st : ModuleState) (h : Reachable st)
    (hi : st.initted = false) :
    (∀ caps, get_server_caps st caps = .error .uninittedError) ∧
    (∀ info, get_server_info st info = .error .uninittedError) ∧
    (∀ (ref : Nat) (n : Notification) (nid : Nat),
      «show» st ref n nid = .error .uninittedError) ∧
    (∀ n : Notification, n.id ≠ 0 → close st n = .error .uninittedError) := by
  have hd := reachable_uninitted_stub h hi
  refine ⟨fun caps => ?_, fun info => ?_, fun ref n nid => ?_, fun n hn => ?_⟩
  · unfold get_server_caps; rw [hd]
  · unfold get_server_info; rw [hd]
  · unfold «show»; rw [hd]
  · unfold close; rw [hd]; simp [hn]

/-- C2 witness: at the import-time state (reachable, uninitialized), the
four operations all raise UninittedError. -/
theorem uninitialized_operations_raise_witness :
    get_server_caps initialState [] = .error .uninittedError ∧
    get_server_info initialState ("a", "b", "c", "d") = .error .uninittedError ∧
    «show» initialState 1 exNotif 7 = .error .uninittedError ∧
    close initialState exShown = .error .uninittedError := by
  have h := uninitialized_operations_raise initialState Reachable.initial rfl
  exact ⟨h.1 [], h.2.1 ("a", "b", "c", "d"), h.2.2.1 1 exNotif 7,
         h.2.2.2 exShown (by decide)⟩

/-- C3: on every successful show(), the object's id becomes exactly the
server-returned id (replacing any prior value); a subsequent close()
targets that latest id; and when events are enabled the registry afterwards
maps that id to the very same object reference (same address), not a copy. -/
theorem show_sets_id_and_registers (st st' : ModuleState) (ref : Nat)
    (n n' : Notification) (nid : Nat) (calls : List OutCall)
    (h : «show» st ref n nid = .ok (st', n', calls)) :
    n'.id = nid ∧
    (st.have_mainloop = true →
      dictLookup st'.notifications_registry nid = some ⟨ref, n'⟩) ∧
    (nid ≠ 0 → close st' n' = .ok (st', n', [.closeNotification nid])) := by
  unfold «show» at h
  cases hd : st.dbus_obj <;> rw [hd] at h
  · exact absurd h (by simp)
  · by_cases hm : st.have_mainloop = true <;> simp [hm] at h <;>
      obtain ⟨h1, h2, -⟩ := h <;> subst h1 <;> subst h2
    · refine ⟨rfl, fun _ => ?_, fun hn => ?_⟩
      · simp [dictLookup_dictInsert_self]
      · unfold close; simp [hn, hd]
    · refine ⟨rfl, fun hc => absurd hc hm, fun hn => ?_⟩
      unfold close; simp [hn, hd]

/-- C3 witness: showing `exNotif` (address 42) from the ready state with
events enabled, with the server returning id 7, yields `exShown` with
id 7, registry entry `(7, ⟨42, exShown⟩)`, and close targeting id 7. -/
theorem show_sets_id_and_registers_witness :
    exShown.id = 7 ∧
    (exStReady.have_mainloop = true →
      dictLookup exStAfter.notifications_registry 7 = some ⟨42, exShown⟩) ∧
    (7 ≠ 0 → close exStAfter exShown = .ok (exStAfter, exShown,
      [.closeNotification 7])) :=
  show_sets_id_and_registers exStReady exStAfter 42 exNotif exShown 7
    [.notify "app" 0 "i" "s" "b" [] [] (-1)] rfl

/-- C4: the Connection Manager invariants — the channel handle is present
iff `initted`, and `_have_mainloop` implies `initted` — hold in every
reachable module state, and both init() and uninit() preserve them. -/
theorem connection_manager_invariants :
    (∀ st : ModuleState, Reachable st → StateInv st) ∧
    (∀ (st : ModuleState) (app : String) (ml dl : Bool),
      StateInv st → StateInv (init st app ml dl)) ∧
    (∀ st : ModuleState, StateInv st → StateInv (uninit st)) :=
  ⟨fun _ h => reachable_stateInv h,
   fun st app ml dl _ => stateInv_init st app ml dl,
   fun st _ => stateInv_uninit st⟩

/-- C4 witness: the invariant at the import-time state, after an init with
a mainloop, and after an uninit. -/
theorem connection_manager_invariants_witness :
    StateInv initialState ∧ StateInv (init initialState "test" true false) ∧
    StateInv (uninit initialState) :=
  ⟨connection_manager_invariants.1 initialState Reachable.initial,
   connection_manager_invariants.2.1 initialState "test" true false (by decide),
   connection_manager_invariants.2.2 initialState (by decide)⟩

/-- C5: the instance-level action dispatch silently ignores an action key
absent from the object's actions dict; for a present key it invokes exactly
the stored callback, with arguments (self, key) when no user data was
supplied in add_action and (self, key, userData) when it was. -/
theorem action_dispatch_correct (n : Notification) (key : String) :
    (dictLookup n.actions key = none → n.action_dispatch key = none) ∧
    (∀ e : ActionEntry, dictLookup n.actions key = some e →
      n.action_dispatch key =
        some { callback := e.callback, selfArg := n, actionKey := key,
               userDataArg := e.user_data }) := by
  constructor
  · intro h; unfold Notification.action_dispatch; rw [h]
  · intro e h
    unfold Notification.action_dispatch
    rw [h]
    cases hu : e.user_data <;> simp [hu]

/-- C5 witness: on `exActed`, an unknown key dispatches nothing, the key
"ok" (no user data) dispatches callback 1 with (self, "ok"), and the key
"no" (user data 9) dispatches callback 2 with (self, "no", 9). -/
theorem action_dispatch_correct_witness :
    exActed.action_dispatch "zap" = none ∧
    exActed.action_dispatch "ok" = some ⟨1, exActed, "ok", none⟩ ∧
    exActed.action_dispatch "no" = some ⟨2, exActed, "no", some 9⟩ :=
  ⟨(action_dispatch_correct exActed "zap").1 (by decide),
   (action_dispatch_correct exActed "ok").2 ⟨"OK", 1, none⟩ (by decide),
   (action_dispatch_correct exActed "no").2 ⟨"No", 2, some 9⟩ (by decide)⟩

/-- C6: close() with id 0 is a no-op (no outbound call, no state change,
even when uninitialized); with nonzero id (and a live channel) it issues
the close call for that id while changing neither the object's id field
nor the registry. -/
theorem close_frame (st : ModuleState) (n : Notification) :
    (n.id = 0 → close st n = .ok (st, n, [])) ∧
    (n.id ≠ 0 → st.dbus_obj = .connected →
      close st n = .ok (st, n, [.closeNotification n.id])) := by
  constructor
  · intro h0; unfold close; simp [h0]
  · intro hn hd; unfold close; simp [hn, hd]

/-- C6 witness: closing a never-shown notification is a no-op, and closing
`exShown` (id 7) from the registered state issues CloseNotification 7 and
leaves state, object and registry unchanged. -/
theorem close_frame_witness :
    close initialState exNotif = .ok (initialState, exNotif, []) ∧
    close exStAfter exShown = .ok (exStAfter, exShown, [.closeNotification 7]) :=
  ⟨(close_frame initialState exNotif).1 (by decide),
   (close_frame exStAfter exShown).2 (by decide) (by decide)⟩

/-- C7: uninit() resets the connection state — initted false, events
disabled, channel replaced by the raising stub — and leaves the registry
contents entirely unchanged. -/
theorem uninit_frame (st : ModuleState) :
    (uninit st).initted = false ∧ (uninit st).have_mainloop = false ∧
    (uninit st).dbus_obj = .uninitted ∧
    (uninit st).notifications_registry = st.notifications_registry := by
  unfold uninit; simp

/-- C8: set_urgency rejects every level outside {0, 1, 2} with ValueError
(raised before any mutation, so the hints are untouched); for a level in
{0, 1, 2} it succeeds, via set_hint_byte, and the hint key "urgency" then
holds that level as a dbus.Byte value. -/
theorem set_urgency_correct (n : Notification) (level : Int) :
    (level ∉ urgency_levels → n.set_urgency level = .error .valueError) ∧
    (level ∈ urgency_levels →
      n.set_urgency level = .ok (n.set_hint_byte "urgency" level) ∧
      dictLookup (n.set_hint_byte "urgency" level).hints "urgency" =
        some (.byte level)) := by
  constructor
  · intro h; unfold Notification.set_urgency; simp [h]
  · intro h
    refine ⟨by unfold Notification.set_urgency; simp [h], ?_⟩
    unfold Notification.set_hint_byte
    simp [dictLookup_dictInsert_self]

/-- C8 witness: set_urgency 3 fails with ValueError and set_urgency 1
stores the byte-typed hint urgency = 1. -/
theorem set_urgency_correct_witness :
    exNotif.set_urgency 3 = .error .valueError ∧
    (exNotif.set_urgency 1 = .ok (exNotif.set_hint_byte "urgency" 1) ∧
      dictLookup (exNotif.set_hint_byte "urgency" 1).hints "urgency" =
        some (.byte 1)) :=
  ⟨(set_urgency_correct exNotif 3).1 (by decide),
   (set_urgency_correct exNotif 1).2 (by decide)⟩

/-- C9: connect rejects every event name other than "closed" with
ValueError (raised before any mutation, so the closed callback is
untouched); connect "closed" sets the object's closed callback to the
supplied function. -/
theorem connect_correct (n : Notification) (event : String) (cb : Nat) :
    (event ≠ "closed" → n.connect event cb = .error .valueError) ∧
    n.connect "closed" cb = .ok { n with closedCallback := some cb } := by
  constructor
  · intro h; unfold Notification.connect; simp [h]
  · unfold Notification.connect; simp

/-- C9 witness: connect "opened" fails with ValueError; connect "closed"
sets the closed callback. -/
theorem connect_correct_witness :
    exNotif.connect "opened" 3 = .error .valueError ∧
    exNotif.connect "closed" 3 = .ok { exNotif with closedCallback := some 3 } :=
  ⟨(connect_correct exNotif "opened" 3).1 (by decide),
   (connect_correct exNotif "closed" 3).2⟩

/-- C10: update with the message argument omitted (Python default "")
resets the body to the empty string rather than keeping the current body;
the icon is kept when its argument is omitted; and update never changes
id, hints, actions, timeout or the closed callback. -/
theorem update_frame (n : Notification) (s m : String) (icon : Option String) :
    (n.update s "" none).message = "" ∧
    (n.update s m none).icon = n.icon ∧
    (n.update s m icon).id = n.id ∧
    (n.update s m icon).hints = n.hints ∧
    (n.update s m icon).actions = n.actions ∧
    (n.update s m icon).timeout = n.timeout ∧
    (n.update s m icon).closedCallback = n.closedCallback := by
  unfold Notification.update
  cases icon <;> simp

end Notify2
